import Mathlib

/-!
Verification of the GLX vendor-neutral dispatch layer (`glx/vndserver.h`)
and the gallium reference-counting helper (`util/u_inlines.h`).

The dispatch layer's header declares its operations; the operational
definitions below labelled `Modelled from the spec:` embed the behaviour the
design document assigns to each declared entry point.  `GlxCheckSwap` and
`pipe_reference_described` are `static inline` in the headers and are embedded
directly from their C bodies.
-/

/-! ## Basic protocol types -/

/-- XID: a generic server-wide resource identifier (32-bit on the wire). -/
abbrev XID := Nat

/-- Opaque handle to a `GlxServerVendor` module; identity is all that matters
to this layer, so we use a numeric id. -/
abbrev GlxServerVendor := Nat

/-- Minimal model of the server's `ClientRec`: the only field the code under
verification reads is the recorded byte-order flag `swapped`. -/
structure ClientRec where
  swapped : Bool
deriving DecidableEq, Repr

/-- Embedding of the `static inline CARD32 GlxCheckSwap(ClientPtr, CARD32)`
body from `vndserver.h`: when the client is byte-swapped, reverse the four
bytes of `value`; otherwise return `value` unchanged.  `CARD32` values are
naturals below `2 ^ 32`. -/
def GlxCheckSwap (client : ClientRec) (value : Nat) : Nat :=
  if client.swapped then
    ((value &&& 0xFF000000) >>> 24) ||| ((value &&& 0x00FF0000) >>> 8)
      ||| ((value &&& 0x0000FF00) <<< 8) ||| ((value &&& 0x000000FF) <<< 24)
  else value

/-! ## XID ownership map -/

/-- Error taxonomy of the spec: `NoVendor`, `AlreadyMapped`, `TagNotFound`,
`OutOfMemory`, `BadRequest`. -/
inductive GlxError where
  | noVendor
  | alreadyMapped
  | tagNotFound
  | outOfMemory
  | badRequest
deriving DecidableEq, Repr

/-- The XID ownership map: an association list from resource id to the vendor
module that created the underlying object. -/
abbrev XIDMap := List (XID × GlxServerVendor)

/-- Modelled from the spec: `GlxGetXIDMap` (declared in `vndserver.h`, body in
the repository outside this excerpt) — `get(id) -> vendor | none`, a pure
lookup in the XID ownership map. -/
def GlxGetXIDMap (m : XIDMap) (id : XID) : Option GlxServerVendor :=
  match m.find? (fun e => e.1 == id) with
  | some e => some e.2
  | none => none

/-- Result of an XID insertion attempt. -/
inductive AddXIDResult where
  | ok
  | alreadyMapped
  | outOfMemory
deriving DecidableEq, Repr

/-- Modelled from the spec: `GlxAddXIDMap` (declared in `vndserver.h`, body in
the repository outside this excerpt) — `add(id, vendor) -> ok | AlreadyMapped`:
inserts; fails if `id` is already present, and a failure leaves the map
unchanged.  The `allocOk` flag is the environment's answer to the memory
allocation the insertion needs; when it is false the insertion fails with
`OutOfMemory` and the map is left unchanged. -/
def GlxAddXIDMap (allocOk : Bool) (m : XIDMap) (id : XID) (v : GlxServerVendor) :
    AddXIDResult × XIDMap :=
  match GlxGetXIDMap m id with
  | some _ => (AddXIDResult.alreadyMapped, m)
  | none =>
    if allocOk then (AddXIDResult.ok, (id, v) :: m)
    else (AddXIDResult.outOfMemory, m)

/-- Modelled from the spec: `GlxRemoveXIDMap` (declared in `vndserver.h`, body
in the repository outside this excerpt) — `remove(id)`: idempotent removal;
removing an absent id is a no-op, not an error, so the operation returns only
the new map. -/
def GlxRemoveXIDMap (m : XIDMap) (id : XID) : XIDMap :=
  m.filter (fun e => e.1 != id)

/-! ## Per-client context-tag table -/

/-- Embedding of `struct GlxContextTagInfoRec` from `vndserver.h`: the tag,
the owning client, the vendor module, the opaque vendor-private data pointer
(kept as an opaque numeric handle, never dereferenced), and the context,
drawable and read-drawable ids. -/
structure GlxContextTagInfo where
  tag : Nat
  client : Nat
  vendor : GlxServerVendor
  data : Nat
  context : Nat
  drawable : Nat
  readdrawable : Nat
deriving DecidableEq, Repr

/-- Embedding of `struct GlxClientPrivRec` from `vndserver.h`: the growable
ordered sequence of context-tag records (`contextTags`, whose length is the
source's `contextTagCount`), together with the monotonic next-tag counter the
spec prescribes (tag 0 is the reserved sentinel, so the counter starts at 1
and never returns a previously issued value). -/
structure GlxClientPriv where
  contextTags : List GlxContextTagInfo
  nextTag : Nat
deriving DecidableEq, Repr

/-- A freshly created (lazily allocated) client record: empty sequence, first
tag to issue is 1. -/
def freshClientPriv : GlxClientPriv :=
  { contextTags := [], nextTag := 1 }

/-- Modelled from the spec: `GlxAllocContextTag` (declared in `vndserver.h`,
body in the repository outside this excerpt) — appends a new record and
returns a fresh non-zero tag unique within that client's table; fails with
`OutOfMemory` (returning no record and leaving the table unchanged) if the
sequence cannot grow, which the `allocOk` flag models. -/
def GlxAllocContextTag (allocOk : Bool) (client : Nat) (cl : GlxClientPriv)
    (vendor : GlxServerVendor) : Option GlxContextTagInfo × GlxClientPriv :=
  if allocOk then
    let info : GlxContextTagInfo :=
      { tag := cl.nextTag, client := client, vendor := vendor,
        data := 0, context := 0, drawable := 0, readdrawable := 0 }
    (some info, { contextTags := cl.contextTags ++ [info], nextTag := cl.nextTag + 1 })
  else (none, cl)

/-- Modelled from the spec: `GlxLookupContextTag` (declared in `vndserver.h`,
body in the repository outside this excerpt) — `lookup(client, tag) ->
record | none`. -/
def GlxLookupContextTag (cl : GlxClientPriv) (tag : Nat) : Option GlxContextTagInfo :=
  cl.contextTags.find? (fun info => info.tag == tag)

/-- Modelled from the spec: `GlxFreeContextTag` (declared in `vndserver.h`,
body in the repository outside this excerpt) — removes the record with the
given tag from its owning client's sequence; the opaque `data` handle is not
touched. -/
def GlxFreeContextTag (cl : GlxClientPriv) (tag : Nat) : GlxClientPriv :=
  { cl with contextTags := cl.contextTags.filter (fun info => info.tag != tag) }

/-- One client-visible operation on a context-tag table: a tag allocation
(with the environment's allocation verdict) or the release of a tag. -/
inductive TagOp where
  | alloc (ok : Bool) (client : Nat) (vendor : GlxServerVendor)
  | free (tag : Nat)
deriving DecidableEq, Repr

/-- State transition of one `TagOp` on a client's tag table. -/
def applyTagOp (cl : GlxClientPriv) : TagOp → GlxClientPriv
  | TagOp.alloc ok client vendor => (GlxAllocContextTag ok client cl vendor).2
  | TagOp.free tag => GlxFreeContextTag cl tag

/-- Run a sequence of allocations and frees from a fresh client record. -/
def runTagOps (ops : List TagOp) : GlxClientPriv :=
  ops.foldl applyTagOp freshClientPriv

/-- The tag-table invariant: the counter has passed the sentinel 0, and every
live record carries a non-zero tag strictly below the counter. -/
def TagsWellFormed (cl : GlxClientPriv) : Prop :=
  1 ≤ cl.nextTag ∧ ∀ info ∈ cl.contextTags, 0 < info.tag ∧ info.tag < cl.nextTag

/-! ## Vendor registry and whole-subsystem state -/

/-- The screen-vendor registry, mapping a screen number to the vendor module
bound to it (`GlxScreenPriv.vendor`); screens absent from the list have no
vendor bound. -/
abbrev ScreenRegistry := List (Nat × GlxServerVendor)

/-- Resolve the vendor bound to a screen: pure lookup, no side effects. -/
def resolveScreenVendor (reg : ScreenRegistry) (screen : Nat) : Option GlxServerVendor :=
  match reg.find? (fun e => e.1 == screen) with
  | some e => some e.2
  | none => none

/-- Modelled from the spec: `GlxSetScreenVendor` (declared in `vndserver.h`,
body in the repository outside this excerpt) — `bind(screen, vendor)`: sets
the screen's vendor exactly once; rebinding an already-bound screen is
rejected (conflict, returns false and changes nothing) unless called during
the server-reset path (`inReset`), where overwriting is explicitly allowed. -/
def GlxSetScreenVendor (inReset : Bool) (reg : ScreenRegistry) (screen : Nat)
    (v : GlxServerVendor) : Bool × ScreenRegistry :=
  match resolveScreenVendor reg screen with
  | some _ =>
    if inReset then (true, (screen, v) :: reg.filter (fun e => e.1 != screen))
    else (false, reg)
  | none => (true, (screen, v) :: reg)

/-- Modelled from the spec: `GlxGetVendorForScreen` (declared in
`vndserver.h`, body in the repository outside this excerpt) —
`resolveForClient(client, screen)`: identical to `resolve(screen)` in the base
design; it must degrade to the pure registry lookup when no per-client
override applies, and the base design has none. -/
def GlxGetVendorForScreen (client : Nat) (reg : ScreenRegistry) (screen : Nat) :
    Option GlxServerVendor :=
  resolveScreenVendor reg screen

/-- The process-wide state of the subsystem: the vendor registry, the XID
ownership map and the client state table (client id to its tag table). -/
structure GlxServerState where
  screenVendors : ScreenRegistry
  xidMap : XIDMap
  clients : List (Nat × GlxClientPriv)
deriving DecidableEq, Repr

/-- Modelled from the spec: `GlxDispatchInit` (declared in `vndserver.h`, body
in the repository outside this excerpt) — initializes empty registries and
tables. -/
def GlxDispatchInit : GlxServerState :=
  { screenVendors := [], xidMap := [], clients := [] }

/-- Modelled from the spec: `GlxDispatchReset` (declared in `vndserver.h`,
body in the repository outside this excerpt) — frees every client-state entry,
clears the vendor registry bindings and clears the XID ownership map. -/
def GlxDispatchReset (st : GlxServerState) : GlxServerState :=
  { screenVendors := [], xidMap := [], clients := [] }

/-! ## Request router -/

/-- The routing key a decoded request carries: a screen id, a generic XID or a
context tag (which field applies is fixed by the opcode). -/
inductive RoutingKey where
  | screenKey (screen : Nat)
  | xidKey (id : XID)
  | tagKey (tag : Nat)
deriving DecidableEq, Repr

/-- A decoded request: its opcode and the routing key it carries. -/
structure GlxRequest where
  opcode : Nat
  key : RoutingKey
deriving DecidableEq, Repr

/-- Outcome of dispatching one request: either the request was forwarded into
the resolved vendor module's handler, or a protocol error was returned to the
client without entering any module. -/
inductive DispatchOutcome where
  | forwarded (v : GlxServerVendor) (req : GlxRequest)
  | protocolError (e : GlxError)
deriving DecidableEq, Repr

/-- The tag table recorded for a client, or a fresh one if none exists yet
(lazy creation by `GlxGetClientData`). -/
def clientPrivOf (st : GlxServerState) (client : Nat) : GlxClientPriv :=
  match st.clients.find? (fun e => e.1 == client) with
  | some e => e.2
  | none => freshClientPriv

/-- Resolve the vendor module owning a request's routing key, through the
registry, the XID map or the client's tag table as the key demands. -/
def resolveVendorForRequest (st : GlxServerState) (client : Nat) :
    RoutingKey → Option GlxServerVendor
  | RoutingKey.screenKey s => GlxGetVendorForScreen client st.screenVendors s
  | RoutingKey.xidKey id => GlxGetXIDMap st.xidMap id
  | RoutingKey.tagKey t =>
    match GlxLookupContextTag (clientPrivOf st client) t with
    | some info => some info.vendor
    | none => none

/-- Modelled from the spec: `GlxDispatchRequest` (declared in `vndserver.h`,
body in the repository outside this excerpt) — resolves a vendor for the
request's routing key; if no vendor resolves it returns a `NoVendor` protocol
error and never forwards to a null module, otherwise it forwards the request
into the resolved module's handler. -/
def GlxDispatchRequest (st : GlxServerState) (client : Nat) (req : GlxRequest) :
    DispatchOutcome :=
  match resolveVendorForRequest st client req.key with
  | none => DispatchOutcome.protocolError GlxError.noVendor
  | some v => DispatchOutcome.forwarded v req

/-! ## Gallium reference counting (`u_inlines.h`) -/

/-- Heap of `struct pipe_reference` cells, addressed by a numeric identity;
each cell holds its signed reference count. -/
abbrev PipeHeap := Nat → Int

/-- Embedding of `static inline boolean pipe_reference_described` from
`u_inlines.h`.  `ptr` and `reference` are possibly-null cell addresses.  When
they denote different cells, `reference`'s count (if non-null) is incremented
first, then `ptr`'s count (if non-null) is decremented, and TRUE is returned
exactly when that decrement reaches zero; when they alias (or are both null)
no count changes and FALSE is returned.  The debug-tracing calls carry no
state and are omitted. -/
def pipe_reference_described (heap : PipeHeap) (ptr reference : Option Nat) :
    Bool × PipeHeap :=
  if ptr ≠ reference then
    let heap1 : PipeHeap :=
      match reference with
      | some r => fun a => if a = r then heap r + 1 else heap a
      | none => heap
    match ptr with
    | some p =>
      (heap1 p - 1 == 0, fun a => if a = p then heap1 p - 1 else heap1 a)
    | none => (false, heap1)
  else (false, heap)

/-! ## Helper lemmas -/

/-- Disjoint bitwise-or is addition: if two naturals share no set bit, their
`|||` equals their sum. -/
theorem lor_eq_add_of_and_eq_zero : ∀ a b : Nat, a &&& b = 0 → a ||| b = a + b := by
  intro a
  induction a using Nat.strongRecOn with
  | ind a ih =>
    intro b h
    by_cases ha : a = 0
    · subst ha; simp
    · have hlt : a / 2 < a := Nat.div_lt_self (Nat.pos_of_ne_zero ha) (by decide)
      have hand : a / 2 &&& b / 2 = 0 := by rw [← Nat.and_div_two, h]
      have ih2 := ih (a / 2) hlt (b / 2) hand
      have hmod : ¬(a % 2 = 1 ∧ b % 2 = 1) := by
        intro hc
        have h1 : (a &&& b) % 2 = 1 := Nat.and_mod_two_eq_one.mpr hc
        rw [h] at h1
        exact absurd h1 (by decide)
      have hormod := @Nat.or_mod_two_eq_one a b
      have e1 := Nat.div_add_mod (a ||| b) 2
      rw [@Nat.or_div_two a b, ih2] at e1
      have e2 := Nat.div_add_mod a 2
      have e3 := Nat.div_add_mod b 2
      omega

/-- A value below `2 ^ k` shares no bit with any multiple of `2 ^ k`. -/
theorem and_mul_shift_eq_zero {a k : Nat} (b : Nat) (ha : a < 2 ^ k) : a &&& b <<< k = 0 := by
  apply Nat.eq_of_testBit_eq
  intro i
  simp only [Nat.testBit_and, Nat.testBit_shiftLeft, Nat.zero_testBit]
  by_cases hik : k ≤ i
  · have hf : a.testBit i = false :=
      Nat.testBit_lt_two_pow (lt_of_lt_of_le ha (Nat.pow_le_pow_right (by decide) hik))
    simp [hf]
  · simp [hik]

/-- Masking with a byte mask shifted by `k` extracts the byte at offset `k`. -/
theorem and_mask_shift (x k : Nat) : x &&& (2 ^ 8 - 1) <<< k = ((x >>> k) % 2 ^ 8) <<< k := by
  apply Nat.eq_of_testBit_eq
  intro i
  simp only [Nat.testBit_and, Nat.testBit_shiftLeft, Nat.testBit_shiftRight,
    Nat.testBit_mod_two_pow, Nat.testBit_two_pow_sub_one]
  by_cases hik : k ≤ i
  · have hki : k + (i - k) = i := Nat.add_sub_cancel' hik
    simp [hik, hki, Bool.and_assoc]
    rw [Bool.and_comm]
  · simp [hik]

/-- Arithmetic form of the swapped branch of `GlxCheckSwap`: the masked shifts
compute the byte-reversal of the low 32 bits. -/
theorem GlxCheckSwap_swapped_eq (x : Nat) :
    GlxCheckSwap ⟨true⟩ x =
      x / 2 ^ 24 % 2 ^ 8 + x / 2 ^ 16 % 2 ^ 8 * 2 ^ 8
        + x / 2 ^ 8 % 2 ^ 8 * 2 ^ 16 + x % 2 ^ 8 * 2 ^ 24 := by
  have m24 : x &&& 0xFF000000 = ((x >>> 24) % 2 ^ 8) <<< 24 := and_mask_shift x 24
  have m16 : x &&& 0x00FF0000 = ((x >>> 16) % 2 ^ 8) <<< 16 := and_mask_shift x 16
  have m8 : x &&& 0x0000FF00 = ((x >>> 8) % 2 ^ 8) <<< 8 := and_mask_shift x 8
  have m0 : x &&& 0x000000FF = ((x >>> 0) % 2 ^ 8) <<< 0 := and_mask_shift x 0
  show ((x &&& 0xFF000000) >>> 24) ||| ((x &&& 0x00FF0000) >>> 8)
      ||| ((x &&& 0x0000FF00) <<< 8) ||| ((x &&& 0x000000FF) <<< 24) = _
  rw [m24, m16, m8, m0]
  simp only [Nat.shiftLeft_eq, Nat.shiftRight_eq_div_pow, Nat.pow_zero, Nat.div_one, Nat.mul_one]
  set c3 := x / 2 ^ 24 % 2 ^ 8 with hc3
  set c2 := x / 2 ^ 16 % 2 ^ 8 with hc2
  set c1 := x / 2 ^ 8 % 2 ^ 8 with hc1
  set c0 := x % 2 ^ 8 with hc0
  have b3 : c3 < 2 ^ 8 := by omega
  have b2 : c2 < 2 ^ 8 := by omega
  have b1 : c1 < 2 ^ 8 := by omega
  have b0 : c0 < 2 ^ 8 := by omega
  have f1 : c3 * 2 ^ 24 / 2 ^ 24 = c3 := Nat.mul_div_cancel _ (Nat.two_pow_pos 24)
  have f2 : c2 * 2 ^ 16 / 2 ^ 8 = c2 * 2 ^ 8 := by omega
  have f3 : c1 * 2 ^ 8 * 2 ^ 8 = c1 * 2 ^ 16 := by omega
  rw [f1, f2, f3]
  have d1 : c3 &&& c2 * 2 ^ 8 = 0 := by
    have h0 := and_mul_shift_eq_zero (k := 8) c2 b3
    rwa [Nat.shiftLeft_eq] at h0
  have d2 : c3 + c2 * 2 ^ 8 &&& c1 * 2 ^ 16 = 0 := by
    have h0 := and_mul_shift_eq_zero (k := 16) c1 (show c3 + c2 * 2 ^ 8 < 2 ^ 16 by omega)
    rwa [Nat.shiftLeft_eq] at h0
  have d3 : c3 + c2 * 2 ^ 8 + c1 * 2 ^ 16 &&& c0 * 2 ^ 24 = 0 := by
    have h0 := and_mul_shift_eq_zero (k := 24) c0
      (show c3 + c2 * 2 ^ 8 + c1 * 2 ^ 16 < 2 ^ 24 by omega)
    rwa [Nat.shiftLeft_eq] at h0
  rw [lor_eq_add_of_and_eq_zero _ _ d1, lor_eq_add_of_and_eq_zero _ _ d2,
    lor_eq_add_of_and_eq_zero _ _ d3]

/-- Byte recovery: the four byte fields of a packed 32-bit sum are the packed
bytes. -/
theorem bytes_of_sum (c3 c2 c1 c0 : Nat) (h3 : c3 < 2 ^ 8) (h2 : c2 < 2 ^ 8)
    (h1 : c1 < 2 ^ 8) (h0 : c0 < 2 ^ 8) :
    (c3 + c2 * 2 ^ 8 + c1 * 2 ^ 16 + c0 * 2 ^ 24) / 2 ^ 24 % 2 ^ 8 = c0 ∧
    (c3 + c2 * 2 ^ 8 + c1 * 2 ^ 16 + c0 * 2 ^ 24) / 2 ^ 16 % 2 ^ 8 = c1 ∧
    (c3 + c2 * 2 ^ 8 + c1 * 2 ^ 16 + c0 * 2 ^ 24) / 2 ^ 8 % 2 ^ 8 = c2 ∧
    (c3 + c2 * 2 ^ 8 + c1 * 2 ^ 16 + c0 * 2 ^ 24) % 2 ^ 8 = c3 := by
  refine ⟨by omega, by omega, by omega, by omega⟩

/-- Byte decomposition of a 32-bit value. -/
theorem sum_of_bytes (x : Nat) (h : x < 2 ^ 32) :
    x % 2 ^ 8 + x / 2 ^ 8 % 2 ^ 8 * 2 ^ 8 + x / 2 ^ 16 % 2 ^ 8 * 2 ^ 16
      + x / 2 ^ 24 % 2 ^ 8 * 2 ^ 24 = x := by
  omega

/-- Looking up a tag after freeing it always misses: the filter removed every
record with that tag. -/
theorem lookup_after_free (cl : GlxClientPriv) (t : Nat) :
    GlxLookupContextTag (GlxFreeContextTag cl t) t = none := by
  simp only [GlxLookupContextTag, GlxFreeContextTag, List.find?_eq_none, List.mem_filter]
  intro info hmem
  simpa using hmem.2

/-! ## Claim theorems -/

/-- C3: for every XID `id` and vendor `v`, in a state where `id` is unmapped,
`add(id, v)` succeeds and a subsequent `get(id)` returns `v`; a second
`add(id, v2)` without an intervening `remove(id)` fails with `AlreadyMapped`. -/
theorem GlxAddXIDMap_then_get_then_add (m : XIDMap) (id : XID) (v v2 : GlxServerVendor)
    (ok2 : Bool) (h : GlxGetXIDMap m id = none) :
    (GlxAddXIDMap true m id v).1 = AddXIDResult.ok ∧
    GlxGetXIDMap (GlxAddXIDMap true m id v).2 id = some v ∧
    (GlxAddXIDMap ok2 (GlxAddXIDMap true m id v).2 id v2).1 = AddXIDResult.alreadyMapped := by
  cases hf : m.find? (fun e => e.1 == id) with
  | some e => rw [GlxGetXIDMap, hf] at h; cases h
  | none => simp [GlxAddXIDMap, GlxGetXIDMap, hf, List.find?]

/-- Witness for C3 at a concrete map: inserting 3 ↦ 7 into the empty map
succeeds, `get 3` returns 7, and re-inserting 3 reports `AlreadyMapped`. -/
theorem GlxAddXIDMap_then_get_then_add_witness :
    GlxGetXIDMap [] 3 = none ∧
    ((GlxAddXIDMap true [] 3 7).1 = AddXIDResult.ok ∧
      GlxGetXIDMap (GlxAddXIDMap true [] 3 7).2 3 = some 7 ∧
      (GlxAddXIDMap true (GlxAddXIDMap true [] 3 7).2 3 9).1 = AddXIDResult.alreadyMapped) :=
  ⟨rfl, GlxAddXIDMap_then_get_then_add [] 3 7 9 true rfl⟩

/-- C4: removal from the XID map never returns an error (it is a total
function on maps), removing twice equals removing once, and removing an id
that is not mapped leaves the map exactly as it was. -/
theorem GlxRemoveXIDMap_idempotent (m : XIDMap) (id : XID) :
    GlxRemoveXIDMap (GlxRemoveXIDMap m id) id = GlxRemoveXIDMap m id ∧
    (GlxGetXIDMap m id = none → GlxRemoveXIDMap m id = m) := by
  constructor
  · simp [GlxRemoveXIDMap, List.filter_filter]
  · intro h
    rw [GlxRemoveXIDMap, List.filter_eq_self]
    intro e he
    cases hf : m.find? (fun e => e.1 == id) with
    | some e2 => rw [GlxGetXIDMap, hf] at h; cases h
    | none =>
      have := List.find?_eq_none.mp hf e he
      simpa using this

/-- Witness for C4 at a concrete map: removing the unmapped id 2 from
`[(1, 5)]` twice equals removing it once, and once is a no-op. -/
theorem GlxRemoveXIDMap_idempotent_witness :
    GlxRemoveXIDMap (GlxRemoveXIDMap [(1, 5)] 2) 2 = GlxRemoveXIDMap [(1, 5)] 2 ∧
    GlxRemoveXIDMap [(1, 5)] 2 = [(1, 5)] :=
  ⟨(GlxRemoveXIDMap_idempotent [(1, 5)] 2).1,
   (GlxRemoveXIDMap_idempotent [(1, 5)] 2).2 rfl⟩

/-- C7: a failed tag allocation returns the client's tag table exactly as it
was, and a failed XID insertion (`AlreadyMapped` or `OutOfMemory`) returns the
XID map exactly as it was. -/
theorem failed_alloc_add_preserve_state (ok : Bool) (client : Nat)
    (cl cl2 : GlxClientPriv) (vendor : GlxServerVendor) (aok : Bool) (m m2 : XIDMap)
    (id : XID) (v : GlxServerVendor) (r : AddXIDResult)
    (h1 : GlxAllocContextTag ok client cl vendor = (none, cl2))
    (h2 : GlxAddXIDMap aok m id v = (r, m2)) (h3 : r ≠ AddXIDResult.ok) :
    cl2 = cl ∧ m2 = m := by
  constructor
  · cases ok with
    | false =>
      simp only [GlxAllocContextTag] at h1
      rw [if_neg (by simp)] at h1
      injection h1 with ha hb
      exact hb.symm
    | true =>
      simp only [GlxAllocContextTag] at h1
      rw [if_pos trivial] at h1
      injection h1 with ha hb
      exact Option.noConfusion ha
  · cases hget : GlxGetXIDMap m id with
    | some w =>
      simp only [GlxAddXIDMap, hget] at h2
      injection h2 with ha hb
      exact hb.symm
    | none =>
      simp only [GlxAddXIDMap, hget] at h2
      cases aok with
      | false =>
        rw [if_neg (by simp)] at h2
        injection h2 with ha hb
        exact hb.symm
      | true =>
        rw [if_pos rfl] at h2
        injection h2 with ha hb
        exact absurd ha.symm h3

/-- Witness for C7: an out-of-memory allocation on a fresh client and a
duplicate insertion into `[(4, 1)]` both leave their states unchanged. -/
theorem failed_alloc_add_preserve_state_witness :
    GlxAllocContextTag false 0 freshClientPriv 1 = (none, freshClientPriv) ∧
    GlxAddXIDMap true [(4, 1)] 4 2 = (AddXIDResult.alreadyMapped, [(4, 1)]) ∧
    AddXIDResult.alreadyMapped ≠ AddXIDResult.ok ∧
    (freshClientPriv = freshClientPriv ∧ ([(4, 1)] : XIDMap) = [(4, 1)]) :=
  ⟨rfl, rfl, by decide,
   failed_alloc_add_preserve_state false 0 freshClientPriv freshClientPriv 1 true
     [(4, 1)] [(4, 1)] 4 2 AddXIDResult.alreadyMapped rfl rfl (by decide)⟩

/-- C8: for every client and every tag obtained from a successful allocation,
after freeing the record for that tag a lookup of the tag returns none. -/
theorem GlxLookupContextTag_after_free_none (ok : Bool) (client : Nat)
    (cl cl2 : GlxClientPriv) (vendor : GlxServerVendor) (info : GlxContextTagInfo)
    (h : GlxAllocContextTag ok client cl vendor = (some info, cl2)) :
    GlxLookupContextTag (GlxFreeContextTag cl2 info.tag) info.tag = none :=
  lookup_after_free cl2 info.tag

/-- Witness for C8: allocate tag 1 for client 1 with vendor 7 on a fresh
table, free it, and look it up. -/
theorem GlxLookupContextTag_after_free_none_witness :
    GlxAllocContextTag true 1 freshClientPriv 7 =
      (some { tag := 1, client := 1, vendor := 7, data := 0, context := 0,
              drawable := 0, readdrawable := 0 },
       { contextTags := [{ tag := 1, client := 1, vendor := 7, data := 0, context := 0,
                           drawable := 0, readdrawable := 0 }], nextTag := 2 }) ∧
    GlxLookupContextTag
      (GlxFreeContextTag
        { contextTags := [{ tag := 1, client := 1, vendor := 7, data := 0, context := 0,
                            drawable := 0, readdrawable := 0 }], nextTag := 2 } 1) 1 = none :=
  ⟨rfl,
   GlxLookupContextTag_after_free_none true 1 freshClientPriv
     { contextTags := [{ tag := 1, client := 1, vendor := 7, data := 0, context := 0,
                         drawable := 0, readdrawable := 0 }], nextTag := 2 }
     7
     { tag := 1, client := 1, vendor := 7, data := 0, context := 0,
       drawable := 0, readdrawable := 0 }
     rfl⟩

/-- One operation preserves the tag-table invariant. -/
theorem tagsWellFormed_applyTagOp (cl : GlxClientPriv) (op : TagOp)
    (h : TagsWellFormed cl) : TagsWellFormed (applyTagOp cl op) := by
  obtain ⟨h1, h2⟩ := h
  cases op with
  | alloc ok client vendor =>
    cases ok with
    | false => exact ⟨h1, h2⟩
    | true =>
      refine ⟨?_, ?_⟩
      · show 1 ≤ cl.nextTag + 1
        omega
      · intro info hmem
        have hmem2 : info ∈ cl.contextTags ++
            [{ tag := cl.nextTag, client := client, vendor := vendor,
               data := 0, context := 0, drawable := 0, readdrawable := 0 }] := hmem
        show 0 < info.tag ∧ info.tag < cl.nextTag + 1
        rcases List.mem_append.mp hmem2 with hold | hnew
        · have := h2 info hold
          omega
        · have heq : info =
              { tag := cl.nextTag, client := client, vendor := vendor,
                data := 0, context := 0, drawable := 0, readdrawable := 0 } :=
            List.mem_singleton.mp hnew
          rw [heq]
          show 0 < cl.nextTag ∧ cl.nextTag < cl.nextTag + 1
          omega
  | free t =>
    exact ⟨h1, fun info hmem => h2 info (List.mem_of_mem_filter hmem)⟩

/-- Folding any operation sequence from a well-formed table stays
well-formed. -/
theorem tagsWellFormed_foldl (ops : List TagOp) :
    ∀ cl, TagsWellFormed cl → TagsWellFormed (List.foldl applyTagOp cl ops) := by
  induction ops with
  | nil => intro cl h; exact h
  | cons op rest ih => intro cl h; exact ih _ (tagsWellFormed_applyTagOp cl op h)

/-- Every state reachable from a fresh client record is well-formed. -/
theorem tagsWellFormed_runTagOps (ops : List TagOp) : TagsWellFormed (runTagOps ops) :=
  tagsWellFormed_foldl ops freshClientPriv
    ⟨Nat.le_refl 1, fun info hmem => absurd hmem (List.not_mem_nil info)⟩

/-- C2: in any table reached by a sequence of allocations and frees from a
fresh client record, a successful allocation returns a tag that is non-zero
and distinct from every tag live in the table at the moment it is returned. -/
theorem GlxAllocContextTag_fresh_nonzero (ops : List TagOp) (ok : Bool) (client : Nat)
    (vendor : GlxServerVendor) (info : GlxContextTagInfo) (cl2 : GlxClientPriv)
    (h : GlxAllocContextTag ok client (runTagOps ops) vendor = (some info, cl2)) :
    info.tag ≠ 0 ∧ ∀ other ∈ (runTagOps ops).contextTags, other.tag ≠ info.tag := by
  obtain ⟨h1, h2⟩ := tagsWellFormed_runTagOps ops
  cases ok with
  | false =>
    simp only [GlxAllocContextTag] at h
    rw [if_neg (by simp)] at h
    injection h with ha hb
    exact Option.noConfusion ha
  | true =>
    simp only [GlxAllocContextTag] at h
    rw [if_pos trivial] at h
    injection h with ha hb
    injection ha with hinfo
    constructor
    · rw [← hinfo]
      show (runTagOps ops).nextTag ≠ 0
      omega
    · intro other hmem
      have hlt := h2 other hmem
      rw [← hinfo]
      show other.tag ≠ (runTagOps ops).nextTag
      omega

/-- Witness for C2: allocating on the table reached by the empty operation
sequence returns tag 1, which is non-zero and absent from the (empty) live
set. -/
theorem GlxAllocContextTag_fresh_nonzero_witness :
    GlxAllocContextTag true 0 (runTagOps []) 7 =
      (some { tag := 1, client := 0, vendor := 7, data := 0, context := 0,
              drawable := 0, readdrawable := 0 },
       { contextTags := [{ tag := 1, client := 0, vendor := 7, data := 0, context := 0,
                           drawable := 0, readdrawable := 0 }], nextTag := 2 }) ∧
    (({ tag := 1, client := 0, vendor := 7, data := 0, context := 0,
        drawable := 0, readdrawable := 0 } : GlxContextTagInfo).tag ≠ 0 ∧
     ∀ other ∈ (runTagOps []).contextTags,
       other.tag ≠ ({ tag := 1, client := 0, vendor := 7, data := 0, context := 0,
                      drawable := 0, readdrawable := 0 } : GlxContextTagInfo).tag) :=
  ⟨rfl,
   GlxAllocContextTag_fresh_nonzero [] true 0 7
     { tag := 1, client := 0, vendor := 7, data := 0, context := 0,
       drawable := 0, readdrawable := 0 }
     { contextTags := [{ tag := 1, client := 0, vendor := 7, data := 0, context := 0,
                         drawable := 0, readdrawable := 0 }], nextTag := 2 }
     rfl⟩

/-- C1: dispatching a request whose routing key is a screen with no vendor
bound returns the `NoVendor` protocol error and never forwards the request
into any vendor module's handler. -/
theorem GlxDispatchRequest_unbound_screen_noVendor (st : GlxServerState) (client : Nat)
    (opcode screen : Nat)
    (h : GlxGetVendorForScreen client st.screenVendors screen = none) :
    GlxDispatchRequest st client { opcode := opcode, key := RoutingKey.screenKey screen } =
      DispatchOutcome.protocolError GlxError.noVendor ∧
    ∀ (v : GlxServerVendor) (req : GlxRequest),
      GlxDispatchRequest st client { opcode := opcode, key := RoutingKey.screenKey screen } ≠
        DispatchOutcome.forwarded v req := by
  have hres : resolveVendorForRequest st client (RoutingKey.screenKey screen) = none := h
  constructor
  · simp [GlxDispatchRequest, hres]
  · intro v req
    simp [GlxDispatchRequest, hres]

/-- Witness for C1: dispatching a screen-keyed request on the freshly
initialized state (no vendor bound anywhere) yields `NoVendor`. -/
theorem GlxDispatchRequest_unbound_screen_noVendor_witness :
    GlxGetVendorForScreen 0 GlxDispatchInit.screenVendors 2 = none ∧
    (GlxDispatchRequest GlxDispatchInit 0 { opcode := 1, key := RoutingKey.screenKey 2 } =
        DispatchOutcome.protocolError GlxError.noVendor ∧
      ∀ (v : GlxServerVendor) (req : GlxRequest),
        GlxDispatchRequest GlxDispatchInit 0 { opcode := 1, key := RoutingKey.screenKey 2 } ≠
          DispatchOutcome.forwarded v req) :=
  ⟨rfl, GlxDispatchRequest_unbound_screen_noVendor GlxDispatchInit 0 1 2 rfl⟩

/-- C6: resetting from any reachable state yields exactly the freshly
initialized state — empty vendor registry, empty XID ownership map, empty
client state table — and new screen bindings are accepted exactly as in a
freshly initialized state. -/
theorem GlxDispatchReset_fresh (st : GlxServerState) :
    GlxDispatchReset st = GlxDispatchInit ∧
    (GlxDispatchReset st).screenVendors = [] ∧
    (GlxDispatchReset st).xidMap = [] ∧
    (GlxDispatchReset st).clients = [] ∧
    ∀ (inReset : Bool) (screen : Nat) (v : GlxServerVendor),
      GlxSetScreenVendor inReset (GlxDispatchReset st).screenVendors screen v =
        GlxSetScreenVendor inReset GlxDispatchInit.screenVendors screen v :=
  ⟨rfl, rfl, rfl, rfl, fun _ _ _ => rfl⟩

/-- C9: outside the server-reset path, binding succeeds exactly when the
screen has no vendor; binding an already-bound screen is rejected and leaves
the registry unchanged; during the server-reset path rebinding is allowed and
overwrites. -/
theorem GlxSetScreenVendor_bind_once (reg : ScreenRegistry) (screen : Nat)
    (v : GlxServerVendor) :
    ((GlxSetScreenVendor false reg screen v).1 = true ↔
      resolveScreenVendor reg screen = none) ∧
    (resolveScreenVendor reg screen ≠ none →
      GlxSetScreenVendor false reg screen v = (false, reg)) ∧
    ((GlxSetScreenVendor true reg screen v).1 = true ∧
      resolveScreenVendor (GlxSetScreenVendor true reg screen v).2 screen = some v) := by
  cases hf : reg.find? (fun e => e.1 == screen) with
  | some e =>
    refine ⟨?_, ?_, ?_, ?_⟩
    · simp [GlxSetScreenVendor, resolveScreenVendor, hf]
    · intro hne
      simp [GlxSetScreenVendor, resolveScreenVendor, hf]
    · simp [GlxSetScreenVendor, resolveScreenVendor, hf]
    · simp [GlxSetScreenVendor, resolveScreenVendor, hf, List.find?]
  | none =>
    refine ⟨?_, ?_, ?_, ?_⟩
    · simp [GlxSetScreenVendor, resolveScreenVendor, hf]
    · intro hc
      exact absurd (by rw [resolveScreenVendor, hf]) hc
    · simp [GlxSetScreenVendor, resolveScreenVendor, hf]
    · simp [GlxSetScreenVendor, resolveScreenVendor, hf, List.find?]

/-- Witness for C9 on a registry with screen 0 bound to vendor 3: rebinding
outside reset fails and preserves the registry; rebinding during reset
overwrites to vendor 5. -/
theorem GlxSetScreenVendor_bind_once_witness :
    (((GlxSetScreenVendor false [(0, 3)] 0 5).1 = true ↔
        resolveScreenVendor [(0, 3)] 0 = none) ∧
      GlxSetScreenVendor false [(0, 3)] 0 5 = (false, [(0, 3)]) ∧
      ((GlxSetScreenVendor true [(0, 3)] 0 5).1 = true ∧
        resolveScreenVendor (GlxSetScreenVendor true [(0, 3)] 0 5).2 0 = some 5)) := by
  obtain ⟨a, b, c⟩ := GlxSetScreenVendor_bind_once [(0, 3)] 0 5
  exact ⟨a, b (by decide), c⟩

/-- C5: for every client and every 32-bit value, applying the byte-order
adaptation `GlxCheckSwap` twice returns the value unchanged — the
byte-reversal transform is involutive, and the identity applied for a
non-swapped client trivially so. -/
theorem GlxCheckSwap_involutive (client : ClientRec) (x : Nat) (h : x < 2 ^ 32) :
    GlxCheckSwap client (GlxCheckSwap client x) = x := by
  cases client with
  | mk sw =>
    cases sw with
    | false => simp [GlxCheckSwap]
    | true =>
      rw [GlxCheckSwap_swapped_eq, GlxCheckSwap_swapped_eq]
      generalize hc3 : x / 2 ^ 24 % 2 ^ 8 = c3
      generalize hc2 : x / 2 ^ 16 % 2 ^ 8 = c2
      generalize hc1 : x / 2 ^ 8 % 2 ^ 8 = c1
      generalize hc0 : x % 2 ^ 8 = c0
      obtain ⟨g3, g2, g1, g0⟩ :=
        bytes_of_sum c3 c2 c1 c0 (by omega) (by omega) (by omega) (by omega)
      rw [g3, g2, g1, g0]
      rw [← hc0, ← hc1, ← hc2, ← hc3]
      exact sum_of_bytes x h

/-- Witness for C5: double-swapping the 32-bit value 0x12345678 for a swapped
client returns it unchanged. -/
theorem GlxCheckSwap_involutive_witness :
    (0x12345678 : Nat) < 2 ^ 32 ∧
    GlxCheckSwap ⟨true⟩ (GlxCheckSwap ⟨true⟩ 0x12345678) = 0x12345678 :=
  ⟨by norm_num, GlxCheckSwap_involutive ⟨true⟩ 0x12345678 (by norm_num)⟩

/-- C10: `pipe_reference_described` reports destroy-TRUE exactly when `ptr` is
non-null, distinct from `reference`, and decrementing its count reaches zero;
and when `ptr` and `reference` are the same cell (both null included) it
modifies no count and returns FALSE. -/
theorem pipe_reference_described_destroy_iff (heap : PipeHeap) (ptr reference : Option Nat) :
    ((pipe_reference_described heap ptr reference).1 = true ↔
      ∃ p, ptr = some p ∧ ptr ≠ reference ∧ heap p - 1 = 0) ∧
    pipe_reference_described heap ptr ptr = (false, heap) := by
  constructor
  · by_cases hne : ptr = reference
    · subst hne
      simp [pipe_reference_described]
    · cases ptr with
      | none =>
        simp [pipe_reference_described, hne]
      | some p =>
        cases reference with
        | none =>
          simp [pipe_reference_described, hne]
        | some r =>
          have hpr : p ≠ r := fun hc => hne (by rw [hc])
          simp [pipe_reference_described, hne, hpr]
  · simp [pipe_reference_described]

/-- Witness for C10 on the one-cell heap with count 1: releasing cell 0 with a
null new reference destroys it, and an aliased call is a no-op. -/
theorem pipe_reference_described_destroy_iff_witness :
    (((pipe_reference_described (fun _ => 1) (some 0) none).1 = true ↔
        ∃ p, (some 0 : Option Nat) = some p ∧ (some 0 : Option Nat) ≠ none ∧
          (fun _ => (1 : Int)) p - 1 = 0) ∧
      pipe_reference_described (fun _ => 1) (some 0) (some 0) = (false, fun _ => 1)) :=
  pipe_reference_described_destroy_iff (fun _ => 1) (some 0) none
